import Mathlib

/-!
Verification of the FYP (Final Year Project) flow-tracker access-control
and notification-dispatch core.

The definitions below are a shallow embedding of the repository's SQL
migrations (row-level-security policies, security-definer helper
functions, and the notification trigger functions) and of the client-side
mutation handlers that the claims reference.  Tables are embedded as Lean
lists of structures; `auth.uid()` is an explicit `Option Nat` parameter
(NULL = `none`); SQL `SELECT ... INTO` over a multi-row result takes the
first row of the embedded list, and yields the NULL branch when the
result set is empty, exactly as plpgsql does.
-/

namespace Fyp

/-- `user_role` enum from the initial migration. -/
inductive Role where
  | student
  | advisor
  | project_officer
deriving DecidableEq, Repr

/-- `document_status` enum. -/
inductive DocumentStatus where
  | pending
  | approved
  | rejected
deriving DecidableEq, Repr

/-- `fyp_phase` enum. -/
inductive Phase where
  | phase1
  | phase2
  | phase3
  | phase4
deriving DecidableEq, Repr

/-- `notification_type` enum (migration 20250623221107). -/
inductive NotificationType where
  | project_assignment
  | document_submission
  | document_review
  | deadline_reminder
  | project_update
  | system_announcement
deriving DecidableEq, Repr

/-- A row of `public.profiles`. -/
structure Profile where
  id : Nat
  full_name : String
  role : Role
deriving DecidableEq, Repr

/-- A row of `public.fyp_projects` (after migration 20250624013506 dropped
the `student_id` column). -/
structure FypProject where
  id : Nat
  title : String
  advisor_id : Option Nat
  project_officer_id : Option Nat
deriving DecidableEq, Repr

/-- A row of `public.project_students` (student enrollment join table,
`UNIQUE(project_id, student_id)`). -/
structure ProjectStudent where
  project_id : Nat
  student_id : Nat
deriving DecidableEq, Repr

/-- A row of `public.phase_deadlines`; `deadline_date::TEXT` is kept as the
string the trigger splices into its message. -/
structure PhaseDeadline where
  project_id : Nat
  phase : Phase
  deadline_date : String
deriving DecidableEq, Repr

/-- A row of `public.documents` (fields the claims touch; timestamps are
not modelled). -/
structure Document where
  id : Nat
  project_id : Nat
  phase : Phase
  title : String
  submitted_by : Option Nat
  status : DocumentStatus
  advisor_feedback : Option String
  reviewed_by : Option Nat
deriving DecidableEq, Repr

/-- A row of `public.phase_chat_messages` (fields the triggers read). -/
structure ChatMessage where
  project_id : Nat
  phase : String
  user_id : Nat
  message : String
deriving DecidableEq, Repr

/-- A row of `public.notifications`: ids are modelled as sequentially
assigned naturals (`gen_random_uuid()` in the source). -/
structure Notification where
  id : Nat
  user_id : Nat
  title : String
  message : String
  notification_type : NotificationType
  target_role : Option Role
  is_read : Bool
deriving DecidableEq, Repr

/-- The database state the policies and triggers consult. -/
structure DB where
  profiles : List Profile
  projects : List FypProject
  project_students : List ProjectStudent
  documents : List Document
  notifications : List Notification
  next_notification_id : Nat
deriving DecidableEq, Repr

/-- SQL `=` on two nullable values: NULL compares to nothing. -/
def sqlEq : Option Nat → Option Nat → Bool
  | some a, some b => a == b
  | _, _ => false

/-- `public.check_project_officer()` (migration 20250624014734): false on a
NULL `auth.uid()`, otherwise whether the caller's profile row carries the
`project_officer` role. -/
def check_project_officer (uid : Option Nat) (db : DB) : Bool :=
  match uid with
  | none => false
  | some u => db.profiles.any (fun p => p.id == u && p.role == Role.project_officer)

/-- `public.user_has_project_access(project_id)` (migration
20250624014734): officer role globally, or advisor/officer assigned on the
project row, or an enrollment row in `project_students`. -/
def user_has_project_access (uid : Option Nat) (project_id : Nat) (db : DB) : Bool :=
  check_project_officer uid db ||
  db.projects.any (fun p =>
    p.id == project_id && (sqlEq p.advisor_id uid || sqlEq p.project_officer_id uid)) ||
  db.project_students.any (fun ps =>
    ps.project_id == project_id && sqlEq (some ps.student_id) uid)

/-- SQL equality against a non-null right side holds exactly on equal
non-null values. -/
theorem sqlEq_some_iff (a : Option Nat) (u : Nat) :
    sqlEq a (some u) = true ↔ a = some u := by
  cases a <;> simp [sqlEq]

/-- `public.create_notification(user_id, title, message, notification_type,
target_role)` (final form, migration 20250623221107): inserts one row with
`is_read` defaulting to FALSE and returns its id. -/
def create_notification (db : DB) (user_id : Nat) (title message : String)
    (notification_type : NotificationType) (target_role : Option Role) : DB × Nat :=
  let nid := db.next_notification_id
  ({ db with
      notifications := db.notifications ++
        [{ id := nid, user_id := user_id, title := title, message := message,
           notification_type := notification_type, target_role := target_role,
           is_read := false }],
      next_notification_id := nid + 1 }, nid)

/-- The rows a run of `create_notification` over a recipient list lays
down, starting from a given next id. -/
def builtNotifs (nid : Nat) (title message : String)
    (notification_type : NotificationType) (target_role : Option Role) :
    List Nat → List Notification
  | [] => []
  | u :: us =>
      { id := nid, user_id := u, title := title, message := message,
        notification_type := notification_type, target_role := target_role,
        is_read := false } :: builtNotifs (nid + 1) title message notification_type target_role us

/-- `public.notify_role(role_name, title, message, notification_type)`
(migration 20250623221107): loops over every profile whose role matches,
creating one notification per profile with the role as target, counting as
it goes, and returns the count. -/
def notify_role (db : DB) (role_name : Role) (title message : String)
    (notification_type : NotificationType) : DB × Nat :=
  (db.profiles.filter (fun p => p.role == role_name)).foldl
    (fun acc p =>
      ((create_notification acc.1 p.id title message notification_type (some role_name)).1,
        acc.2 + 1))
    (db, 0)

/-- `notify_student_document_review()` trigger function: on a
pending→approved/rejected update it runs
`SELECT ps.student_id, p.title FROM fyp_projects p JOIN project_students ps
ON ps.project_id = p.id WHERE p.id = NEW.project_id` with `SELECT INTO`
semantics — the first row of the join if any, NULLs otherwise — and
notifies that single student.  The submitter is not consulted. -/
def notify_student_document_review (db : DB) (old new : Document) : DB :=
  if old.status == DocumentStatus.pending &&
      (new.status == DocumentStatus.approved || new.status == DocumentStatus.rejected) then
    match db.projects.find? (fun p => p.id == new.project_id) with
    | none => db
    | some p =>
        match (db.project_students.filter (fun ps => ps.project_id == p.id)).head? with
        | none => db
        | some ps =>
            let status_text :=
              if new.status == DocumentStatus.approved then "approved" else "rejected"
            (create_notification db ps.student_id "Document Review Complete"
              ("Your document \"" ++ new.title ++ "\" has been " ++ status_text ++
                " for project \"" ++ p.title ++ "\"")
              NotificationType.document_review none).1
  else db

/-- `notify_project_officer_approval()` trigger function: only on
pending→approved, notifies the project's assigned `project_officer_id`
when one is set.  It does not broadcast to officer-role accounts. -/
def notify_project_officer_approval (db : DB) (old new : Document) : DB :=
  if old.status == DocumentStatus.pending && new.status == DocumentStatus.approved then
    match db.projects.find? (fun p => p.id == new.project_id) with
    | none => db
    | some p =>
        match p.project_officer_id with
        | none => db
        | some officer_id =>
            (create_notification db officer_id "Document Approved"
              ("Document \"" ++ new.title ++ "\" has been approved by advisor for project \"" ++
                p.title ++ "\"")
              NotificationType.document_review none).1
  else db

/-- Both AFTER UPDATE triggers on `documents`, fired in name order
(`trigger_notify_project_officer_approval` before
`trigger_notify_student_document_review`). -/
def documentUpdateDispatch (db : DB) (old new : Document) : DB :=
  notify_student_document_review (notify_project_officer_approval db old new) old new

/-- `notify_advisor_chat_message()` trigger function: joins the message's
project with the author's profile; when an advisor is assigned and is not
the author, notifies the advisor. -/
def notify_advisor_chat_message (db : DB) (msg : ChatMessage) : DB :=
  match db.projects.find? (fun p => p.id == msg.project_id),
        db.profiles.find? (fun pr => pr.id == msg.user_id) with
  | some p, some pr =>
      match p.advisor_id with
      | some advisor_id =>
          if advisor_id != msg.user_id then
            (create_notification db advisor_id "New Chat Message"
              (pr.full_name ++ " sent a message in project \"" ++ p.title ++ "\"")
              NotificationType.project_update none).1
          else db
      | none => db
  | _, _ => db

/-- `notify_student_chat_message()` trigger function: `SELECT INTO` over
the project × enrollment × author-profile join picks the first enrollment
row only; when that single student is not the author, it is notified.  No
per-student fan-out happens. -/
def notify_student_chat_message (db : DB) (msg : ChatMessage) : DB :=
  match db.projects.find? (fun p => p.id == msg.project_id),
        db.profiles.find? (fun pr => pr.id == msg.user_id) with
  | some p, some pr =>
      match (db.project_students.filter (fun ps => ps.project_id == p.id)).head? with
      | some ps =>
          if ps.student_id != msg.user_id then
            (create_notification db ps.student_id "New Chat Message"
              (pr.full_name ++ " sent a message in project \"" ++ p.title ++ "\"")
              NotificationType.project_update none).1
          else db
      | none => db
  | _, _ => db

/-- Both AFTER INSERT triggers on `phase_chat_messages`, fired in name
order (`trigger_notify_advisor_chat` before `trigger_notify_student_chat`). -/
def chatInsertDispatch (db : DB) (msg : ChatMessage) : DB :=
  notify_student_chat_message (notify_advisor_chat_message db msg) msg

/-- Printed phase name used by the deadline trigger's message. -/
def phaseName : Phase → String
  | Phase.phase1 => "Phase 1"
  | Phase.phase2 => "Phase 2"
  | Phase.phase3 => "Phase 3"
  | Phase.phase4 => "Phase 4"

/-- `notify_students_deadline_update()` trigger function (AFTER INSERT OR
UPDATE on `phase_deadlines`): loops over every `project_students` row of
the deadline's project and notifies each enrolled student.
`phase_deadlines.project_id` is a foreign key into `fyp_projects`, so the
project row always exists when the trigger fires; the `none` branch is the
unreachable NULL case. -/
def notify_students_deadline_update (db : DB) (d : PhaseDeadline) : DB :=
  match db.projects.find? (fun p => p.id == d.project_id) with
  | none => db
  | some p =>
      (db.project_students.filter (fun ps => ps.project_id == d.project_id)).foldl
        (fun acc ps =>
          (create_notification acc ps.student_id "Deadline Updated"
            ("The deadline for " ++ phaseName d.phase ++ " of project \"" ++ p.title ++
              "\" has been updated to " ++ d.deadline_date)
            NotificationType.deadline_reminder none).1)
        db

/-- USING/WITH CHECK body of the "Advisors can update document status"
policy (migration 20250624015434): the project's assigned advisor, or an
officer-role caller. -/
def advisor_update_policy (uid : Option Nat) (db : DB) (doc : Document) : Bool :=
  db.projects.any (fun p => p.id == doc.project_id && sqlEq p.advisor_id uid) ||
  check_project_officer uid db

/-- USING/WITH CHECK body of the "Students can update draft documents"
policy (migration 20250624015434): the submitter, while the row's status
is still `pending`. -/
def student_update_policy (uid : Option Nat) (doc : Document) : Bool :=
  sqlEq doc.submitted_by uid && doc.status == DocumentStatus.pending

/-- Row-level-security outcome of an UPDATE on `documents`: the permissive
policies are OR-ed, the old row must pass some policy's USING clause and
the new row must pass some policy's WITH CHECK clause (each policy's
check defaults to its USING expression). -/
def documents_update_allowed (uid : Option Nat) (db : DB) (old new : Document) : Bool :=
  (advisor_update_policy uid db old || student_update_policy uid old) &&
  (advisor_update_policy uid db new || student_update_policy uid new)

/-- `handleReviewDocument` (AdvisorDashboard): updates the row matched by
id only — no condition on the row's current status — setting status,
reviewer, and (on rejection with non-blank feedback) the feedback text.
Row-level security is applied per matched row; a row failing it is left
unchanged.  `reviewed_at` is a timestamp and is not modelled. -/
def handleReviewDocument (db : DB) (uid : Option Nat) (documentId : Nat)
    (status : DocumentStatus) (feedback : String) : DB :=
  { db with
    documents := db.documents.map (fun d =>
      if d.id == documentId then
        let newDoc : Document :=
          { d with
            status := status,
            reviewed_by := uid,
            advisor_feedback :=
              if status == DocumentStatus.rejected && feedback.trim != "" then
                some feedback
              else d.advisor_feedback }
        if documents_update_allowed uid db d newDoc then newDoc else d
      else d) }

/-- `handleRequestReview` (PhaseDetailView): unconditionally writes
`status := pending` on the row matched by id, subject to row-level
security. -/
def handleRequestReview (db : DB) (uid : Option Nat) (documentId : Nat) : DB :=
  { db with
    documents := db.documents.map (fun d =>
      if d.id == documentId then
        let newDoc : Document := { d with status := DocumentStatus.pending }
        if documents_update_allowed uid db d newDoc then newDoc else d
      else d) }

/-- WITH CHECK body of the "System can insert notifications" policy:
`TO authenticated WITH CHECK (true)` — any authenticated caller passes. -/
def notifications_insert_allowed (uid : Option Nat) : Bool :=
  uid.isSome

/-- USING body of the "Users can update own notifications" policy:
`user_id = auth.uid()`. -/
def notifications_update_using (uid : Option Nat) (n : Notification) : Bool :=
  sqlEq (some n.user_id) uid

/-- Row-level-security outcome of an UPDATE on `notifications`: the old
row must pass USING and the new row the defaulted WITH CHECK.  No column
restriction exists: any field of the row may be rewritten. -/
def notifications_update_allowed (uid : Option Nat) (old new : Notification) : Bool :=
  notifications_update_using uid old && notifications_update_using uid new

/-- `markAsReadMutation` (NotificationPopover): sets `is_read := true` on
the row matched by id, subject to row-level security. -/
def markAsRead (db : DB) (uid : Option Nat) (notificationId : Nat) : DB :=
  { db with
    notifications := db.notifications.map (fun n =>
      if n.id == notificationId then
        let newN : Notification := { n with is_read := true }
        if notifications_update_allowed uid n newN then newN else n
      else n) }

/-- `markAllAsReadMutation` (NotificationPopover): sets `is_read := true`
on the rows matched by `user_id = profile.id AND is_read = false`, subject
to row-level security. -/
def markAllAsRead (db : DB) (uid : Option Nat) : DB :=
  { db with
    notifications := db.notifications.map (fun n =>
      if sqlEq (some n.user_id) uid && n.is_read == false then
        let newN : Notification := { n with is_read := true }
        if notifications_update_allowed uid n newN then newN else n
      else n) }

end Fyp

namespace Fyp

/-- Folding `create_notification` over a recipient list appends exactly the
`builtNotifs` rows and leaves every other component of the state intact. -/
theorem foldl_create_notification (us : List Nat) (db : DB) (title message : String)
    (ty : NotificationType) (tr : Option Role) :
    (us.foldl (fun acc u => (create_notification acc u title message ty tr).1) db) =
      { db with
        notifications := db.notifications ++
          builtNotifs db.next_notification_id title message ty tr us,
        next_notification_id := db.next_notification_id + us.length } := by
  induction us generalizing db with
  | nil => simp [builtNotifs]
  | cons u us ih =>
      simp only [List.foldl_cons]
      rw [ih]
      cases db with
      | mk profiles projects project_students documents notifications next_id =>
          simp [create_notification, builtNotifs]
          omega

/-- The recipients of the rows `builtNotifs` lays down, in order. -/
theorem builtNotifs_map_user_id (nid : Nat) (title message : String)
    (ty : NotificationType) (tr : Option Role) (us : List Nat) :
    (builtNotifs nid title message ty tr us).map (·.user_id) = us := by
  induction us generalizing nid with
  | nil => rfl
  | cons u us ih => simp [builtNotifs, ih]

/-- Every row `builtNotifs` lays down carries the given title, message,
type, target role, and an unread flag. -/
theorem builtNotifs_fields (nid : Nat) (title message : String)
    (ty : NotificationType) (tr : Option Role) (us : List Nat) :
    ∀ n ∈ builtNotifs nid title message ty tr us,
      n.title = title ∧ n.message = message ∧ n.notification_type = ty ∧
      n.target_role = tr ∧ n.is_read = false := by
  induction us generalizing nid with
  | nil => intro n hn; cases hn
  | cons u us ih =>
      intro n hn
      simp only [builtNotifs, List.mem_cons] at hn
      rcases hn with hn | hn
      · subst hn; exact ⟨rfl, rfl, rfl, rfl, rfl⟩
      · exact ih (nid + 1) n hn

/-- `builtNotifs` lays down one row per recipient list entry. -/
theorem builtNotifs_length (nid : Nat) (title message : String)
    (ty : NotificationType) (tr : Option Role) (us : List Nat) :
    (builtNotifs nid title message ty tr us).length = us.length := by
  induction us generalizing nid with
  | nil => rfl
  | cons u us ih => simp [builtNotifs, ih]

/-- The count accumulator of `notify_role` only tallies iterations. -/
theorem notify_role_foldl_split (l : List Profile) (db : DB) (r : Role)
    (title message : String) (ty : NotificationType) (c : Nat) :
    l.foldl (fun acc p =>
        ((create_notification acc.1 p.id title message ty (some r)).1, acc.2 + 1)) (db, c) =
      ((l.map (·.id)).foldl
          (fun acc u => (create_notification acc u title message ty (some r)).1) db,
        c + l.length) := by
  induction l generalizing db c with
  | nil => rfl
  | cons p l ih =>
      simp only [List.foldl_cons, List.map_cons, List.length_cons, ih]
      congr 1
      omega

/-- C7: `notify_role` creates exactly one notification per account holding
the requested role at dispatch time — the created rows are appended after
the existing ones, their recipients are precisely the role's account ids
in table order (so N advisor accounts yield exactly N rows, untouched by
other-role accounts), each row carries the given title, message and type —
and it returns the count of notifications created. -/
theorem notify_role_creates_one_per_role_account (db : DB) (r : Role)
    (title message : String) (ty : NotificationType) :
    (notify_role db r title message ty).2
        = (db.profiles.filter (fun p => p.role == r)).length ∧
    ∃ created : List Notification,
      (notify_role db r title message ty).1.notifications = db.notifications ++ created ∧
      created.map (·.user_id) = (db.profiles.filter (fun p => p.role == r)).map (·.id) ∧
      ∀ n ∈ created, n.title = title ∧ n.message = message ∧
        n.notification_type = ty ∧ n.target_role = some r ∧ n.is_read = false := by
  unfold notify_role
  rw [notify_role_foldl_split, foldl_create_notification]
  constructor
  · simp
  · exact ⟨builtNotifs db.next_notification_id title message ty (some r)
        ((db.profiles.filter (fun p => p.role == r)).map (·.id)), rfl,
      builtNotifs_map_user_id _ _ _ _ _ _,
      builtNotifs_fields _ _ _ _ _ _⟩

/-- C5: a review action — an UPDATE moving a document's status to
approved or rejected — by a principal who is neither the project's
assigned advisor nor an officer-role account never passes the `documents`
row policies, regardless of enrollment and even for the submitter: no
policy's WITH CHECK clause accepts the terminal-status row. -/
theorem review_denied_for_non_advisor_non_officer (db : DB) (u : Nat)
    (old new : Document)
    (hproj : new.project_id = old.project_id)
    (hst : new.status = DocumentStatus.approved ∨ new.status = DocumentStatus.rejected)
    (hadv : ∀ p ∈ db.projects, p.id = old.project_id → p.advisor_id ≠ some u)
    (hrole : ∀ pr ∈ db.profiles, pr.id = u → pr.role ≠ Role.project_officer) :
    documents_update_allowed (some u) db old new = false := by
  have hcheck : (advisor_update_policy (some u) db new ||
      student_update_policy (some u) new) = false := by
    apply Bool.or_eq_false_iff.mpr
    constructor
    · unfold advisor_update_policy check_project_officer
      apply Bool.or_eq_false_iff.mpr
      constructor
      · rw [List.any_eq_false]
        intro p hp
        simp only [Bool.and_eq_true, beq_iff_eq, sqlEq_some_iff, not_and]
        intro hid
        exact hadv p hp (hproj ▸ hid)
      · rw [List.any_eq_false]
        intro pr hpr
        simp only [Bool.and_eq_true, beq_iff_eq, not_and]
        intro hid
        exact fun h => hrole pr hpr hid h
    · unfold student_update_policy
      rcases hst with h | h <;> simp [h]
  unfold documents_update_allowed
  rw [hcheck, Bool.and_false]

/-- C5 witness: an enrolled student who is also the document's submitter
attempting to approve their own pending document is denied. -/
theorem review_denied_for_non_advisor_non_officer_witness :
    documents_update_allowed (some 2)
      { profiles := [{ id := 2, full_name := "S2", role := Role.student }],
        projects := [{ id := 1, title := "P", advisor_id := some 3,
                       project_officer_id := some 4 }],
        project_students := [{ project_id := 1, student_id := 2 }],
        documents := [{ id := 10, project_id := 1, phase := Phase.phase1, title := "D",
                        submitted_by := some 2, status := DocumentStatus.pending,
                        advisor_feedback := none, reviewed_by := none }],
        notifications := [], next_notification_id := 0 }
      { id := 10, project_id := 1, phase := Phase.phase1, title := "D",
        submitted_by := some 2, status := DocumentStatus.pending,
        advisor_feedback := none, reviewed_by := none }
      { id := 10, project_id := 1, phase := Phase.phase1, title := "D",
        submitted_by := some 2, status := DocumentStatus.approved,
        advisor_feedback := none, reviewed_by := some 2 } = false :=
  review_denied_for_non_advisor_non_officer _ 2 _ _ rfl (Or.inl rfl)
    (by decide) (by decide)

/-- The deadline trigger's loop over enrollment rows is the same fold over
the enrolled student ids. -/
theorem foldl_create_over_students (l : List ProjectStudent) (db : DB)
    (t m : String) (ty : NotificationType) (tr : Option Role) :
    l.foldl (fun acc ps => (create_notification acc ps.student_id t m ty tr).1) db =
      (l.map (fun ps => ps.student_id)).foldl
        (fun acc u => (create_notification acc u t m ty tr).1) db := by
  induction l generalizing db with
  | nil => rfl
  | cons ps l ih => simp only [List.foldl_cons, List.map_cons, ih]

/-- C8: an insert or update of a `phase_deadlines` row makes the trigger
create exactly one `deadline_reminder` notification per enrolled student
of the deadline's project, and zero notifications for anyone not enrolled
— in particular none for the project's advisor or officer, who are not in
the enrollment table.  The uniqueness hypothesis mirrors the table's
`UNIQUE(project_id, student_id)` constraint. -/
theorem deadline_update_notifies_each_enrolled_student (db : DB)
    (d : PhaseDeadline) (p : FypProject)
    (hp : db.projects.find? (fun q => q.id == d.project_id) = some p)
    (hnd : ((db.project_students.filter (fun ps => ps.project_id == d.project_id)).map
        (fun ps => ps.student_id)).Nodup) :
    ∃ created : List Notification,
      (notify_students_deadline_update db d).notifications = db.notifications ++ created ∧
      created.map (fun n => n.user_id) =
        (db.project_students.filter (fun ps => ps.project_id == d.project_id)).map
          (fun ps => ps.student_id) ∧
      (∀ s ∈ (db.project_students.filter (fun ps => ps.project_id == d.project_id)).map
          (fun ps => ps.student_id),
        (created.map (fun n => n.user_id)).count s = 1) ∧
      (∀ a : Nat,
        a ∉ (db.project_students.filter (fun ps => ps.project_id == d.project_id)).map
          (fun ps => ps.student_id) →
        (created.map (fun n => n.user_id)).count a = 0) ∧
      ∀ n ∈ created, n.notification_type = NotificationType.deadline_reminder ∧
        n.title = "Deadline Updated" ∧ n.is_read = false := by
  unfold notify_students_deadline_update
  simp only [hp]
  rw [foldl_create_over_students, foldl_create_notification]
  refine ⟨builtNotifs db.next_notification_id "Deadline Updated"
      ("The deadline for " ++ phaseName d.phase ++ " of project \"" ++ p.title ++
        "\" has been updated to " ++ d.deadline_date)
      NotificationType.deadline_reminder none
      ((db.project_students.filter (fun ps => ps.project_id == d.project_id)).map
        (fun ps => ps.student_id)),
    rfl, builtNotifs_map_user_id _ _ _ _ _ _, ?_, ?_, ?_⟩
  · intro s hs
    rw [builtNotifs_map_user_id]
    exact List.count_eq_one_of_mem hnd hs
  · intro a ha
    rw [builtNotifs_map_user_id]
    exact List.count_eq_zero.mpr ha
  · intro n hn
    have h := builtNotifs_fields _ _ _ _ _ _ n hn
    exact ⟨h.2.2.1, h.1, h.2.2.2.2⟩

/-- C8 witness: a deadline upsert on a project with enrolled students 1
and 2, advisor 3 and officer 4, creates one reminder per student and none
for anybody else. -/
theorem deadline_update_notifies_each_enrolled_student_witness :
    (DB.mk [{ id := 1, full_name := "S1", role := Role.student },
            { id := 2, full_name := "S2", role := Role.student },
            { id := 3, full_name := "A", role := Role.advisor },
            { id := 4, full_name := "O", role := Role.project_officer }]
        [{ id := 1, title := "P", advisor_id := some 3, project_officer_id := some 4 }]
        [{ project_id := 1, student_id := 1 }, { project_id := 1, student_id := 2 }]
        [] [] 0).projects.find?
        (fun q => q.id == (PhaseDeadline.mk 1 Phase.phase2 "2025-03-01").project_id) =
      some { id := 1, title := "P", advisor_id := some 3, project_officer_id := some 4 } ∧
    ∃ created : List Notification,
      (notify_students_deadline_update
          (DB.mk [{ id := 1, full_name := "S1", role := Role.student },
                  { id := 2, full_name := "S2", role := Role.student },
                  { id := 3, full_name := "A", role := Role.advisor },
                  { id := 4, full_name := "O", role := Role.project_officer }]
              [{ id := 1, title := "P", advisor_id := some 3, project_officer_id := some 4 }]
              [{ project_id := 1, student_id := 1 }, { project_id := 1, student_id := 2 }]
              [] [] 0)
          (PhaseDeadline.mk 1 Phase.phase2 "2025-03-01")).notifications =
        [] ++ created ∧
      created.map (fun n => n.user_id) = [1, 2] ∧
      (∀ s ∈ [1, 2], (created.map (fun n => n.user_id)).count s = 1) ∧
      (∀ a : Nat, a ∉ [1, 2] → (created.map (fun n => n.user_id)).count a = 0) ∧
      ∀ n ∈ created, n.notification_type = NotificationType.deadline_reminder ∧
        n.title = "Deadline Updated" ∧ n.is_read = false := by
  have h := deadline_update_notifies_each_enrolled_student
    (DB.mk [{ id := 1, full_name := "S1", role := Role.student },
            { id := 2, full_name := "S2", role := Role.student },
            { id := 3, full_name := "A", role := Role.advisor },
            { id := 4, full_name := "O", role := Role.project_officer }]
        [{ id := 1, title := "P", advisor_id := some 3, project_officer_id := some 4 }]
        [{ project_id := 1, student_id := 1 }, { project_id := 1, student_id := 2 }]
        [] [] 0)
    (PhaseDeadline.mk 1 Phase.phase2 "2025-03-01")
    { id := 1, title := "P", advisor_id := some 3, project_officer_id := some 4 }
    (by decide) (by decide)
  exact ⟨by decide, h⟩

/-- What the officer-approval trigger adds to the store: one row to the
project's assigned officer, only on a transition into approved. -/
theorem officer_step_spec (db : DB) (old new : Document) (p : FypProject)
    (hold : old.status = DocumentStatus.pending)
    (hp : db.projects.find? (fun q => q.id == new.project_id) = some p) :
    ∃ created : List Notification,
      notify_project_officer_approval db old new =
        { db with notifications := db.notifications ++ created,
                  next_notification_id := db.next_notification_id + created.length } ∧
      created.map (fun n => n.user_id) =
        (if new.status = DocumentStatus.approved then p.project_officer_id.toList else []) ∧
      ∀ n ∈ created, n.notification_type = NotificationType.document_review ∧
        n.is_read = false := by
  by_cases h : new.status = DocumentStatus.approved
  · cases ho : p.project_officer_id with
    | none =>
        refine ⟨[], ?_, by simp [h, ho], by intro n hn; cases hn⟩
        simp [notify_project_officer_approval, hold, h, hp, ho]
    | some o =>
        refine ⟨[{ id := db.next_notification_id, user_id := o,
                   title := "Document Approved",
                   message := "Document \"" ++ new.title ++
                     "\" has been approved by advisor for project \"" ++ p.title ++ "\"",
                   notification_type := NotificationType.document_review,
                   target_role := none, is_read := false }], ?_, by simp [h, ho], ?_⟩
        · simp [notify_project_officer_approval, hold, h, hp, ho, create_notification]
        · intro n hn
          simp only [List.mem_singleton] at hn
          subst hn
          exact ⟨rfl, rfl⟩
  · refine ⟨[], ?_, by simp [h], by intro n hn; cases hn⟩
    have hcond : (old.status == DocumentStatus.pending &&
        new.status == DocumentStatus.approved) = false := by
      have : (new.status == DocumentStatus.approved) = false := by
        simp only [beq_eq_false_iff_ne, ne_eq]
        exact h
      simp [this]
    simp [notify_project_officer_approval, hcond]

/-- What the student-review trigger adds to the store: one row to the
first enrolled student of the project, if the enrollment table has a row
for the project. -/
theorem student_step_spec (db : DB) (old new : Document) (p : FypProject)
    (hold : old.status = DocumentStatus.pending)
    (hnew : new.status = DocumentStatus.approved ∨ new.status = DocumentStatus.rejected)
    (hp : db.projects.find? (fun q => q.id == new.project_id) = some p) :
    ∃ created : List Notification,
      notify_student_document_review db old new =
        { db with notifications := db.notifications ++ created,
                  next_notification_id := db.next_notification_id + created.length } ∧
      created.map (fun n => n.user_id) =
        (((db.project_students.filter (fun ps => ps.project_id == p.id)).head?).map
          (fun ps => ps.student_id)).toList ∧
      ∀ n ∈ created, n.notification_type = NotificationType.document_review ∧
        n.is_read = false := by
  have hcond : (old.status == DocumentStatus.pending &&
      (new.status == DocumentStatus.approved ||
        new.status == DocumentStatus.rejected)) = true := by
    rcases hnew with h | h <;> simp [hold, h]
  cases hm : (db.project_students.filter (fun ps => ps.project_id == p.id)).head? with
  | none =>
      refine ⟨[], ?_, by simp [hm], by intro n hn; cases hn⟩
      simp [notify_student_document_review, hcond, hp, hm]
  | some ps =>
      refine ⟨[{ id := db.next_notification_id, user_id := ps.student_id,
                 title := "Document Review Complete",
                 message := "Your document \"" ++ new.title ++ "\" has been " ++
                   (if new.status == DocumentStatus.approved then "approved"
                    else "rejected") ++ " for project \"" ++ p.title ++ "\"",
                 notification_type := NotificationType.document_review,
                 target_role := none, is_read := false }], ?_, by simp [hm], ?_⟩
      · simp [notify_student_document_review, hcond, hp, hm, create_notification]
      · intro n hn
        simp only [List.mem_singleton] at hn
        subst hn
        exact ⟨rfl, rfl⟩

/-- C3 amended: on a pending→approved/rejected update to a document, the
dispatcher creates one `document_review` notification for the first
enrolled student of the document's project when one exists — not
necessarily the submitter — plus, only on approval, one `document_review`
notification for the project's assigned officer when one is set; no
broadcast to all officer-role accounts takes place. -/
theorem documentUpdateDispatch_spec (db : DB) (old new : Document) (p : FypProject)
    (hold : old.status = DocumentStatus.pending)
    (hnew : new.status = DocumentStatus.approved ∨ new.status = DocumentStatus.rejected)
    (hp : db.projects.find? (fun q => q.id == new.project_id) = some p) :
    ∃ created : List Notification,
      (documentUpdateDispatch db old new).notifications = db.notifications ++ created ∧
      created.map (fun n => n.user_id) =
        (if new.status = DocumentStatus.approved then p.project_officer_id.toList
         else []) ++
        (((db.project_students.filter (fun ps => ps.project_id == p.id)).head?).map
          (fun ps => ps.student_id)).toList ∧
      ∀ n ∈ created, n.notification_type = NotificationType.document_review ∧
        n.is_read = false := by
  obtain ⟨c1, hdb1, hmap1, hfields1⟩ := officer_step_spec db old new p hold hp
  have hp1 : (notify_project_officer_approval db old new).projects.find?
      (fun q => q.id == new.project_id) = some p := by rw [hdb1]; exact hp
  obtain ⟨c2, hdb2, hmap2, hfields2⟩ :=
    student_step_spec (notify_project_officer_approval db old new) old new p hold hnew hp1
  have hps : (notify_project_officer_approval db old new).project_students
      = db.project_students := by rw [hdb1]
  rw [hps] at hmap2
  refine ⟨c1 ++ c2, ?_, ?_, ?_⟩
  · unfold documentUpdateDispatch
    rw [hdb2]
    simp [hdb1, List.append_assoc]
  · rw [List.map_append, hmap1, hmap2]
  · intro n hn
    rcases List.mem_append.mp hn with hn | hn
    · exact hfields1 n hn
    · exact hfields2 n hn

/-- C3 amended witness: project 1 with enrolled student 1, submitter 2 and
assigned officer 4; approving the pending document notifies student 1 and
officer 4 with `document_review` rows. -/
theorem documentUpdateDispatch_spec_witness :
    ∃ created : List Notification,
      (documentUpdateDispatch
          (DB.mk [{ id := 1, full_name := "S1", role := Role.student },
                  { id := 2, full_name := "S2", role := Role.student },
                  { id := 4, full_name := "O", role := Role.project_officer }]
              [{ id := 1, title := "P", advisor_id := some 3, project_officer_id := some 4 }]
              [{ project_id := 1, student_id := 1 }]
              [] [] 0)
          (Document.mk 10 1 Phase.phase1 "D" (some 2) DocumentStatus.pending none none)
          (Document.mk 10 1 Phase.phase1 "D" (some 2) DocumentStatus.approved none
            (some 3))).notifications = [] ++ created ∧
      created.map (fun n => n.user_id) = [4] ++ [1] ∧
      ∀ n ∈ created, n.notification_type = NotificationType.document_review ∧
        n.is_read = false := by
  have h := documentUpdateDispatch_spec
    (DB.mk [{ id := 1, full_name := "S1", role := Role.student },
            { id := 2, full_name := "S2", role := Role.student },
            { id := 4, full_name := "O", role := Role.project_officer }]
        [{ id := 1, title := "P", advisor_id := some 3, project_officer_id := some 4 }]
        [{ project_id := 1, student_id := 1 }]
        [] [] 0)
    (Document.mk 10 1 Phase.phase1 "D" (some 2) DocumentStatus.pending none none)
    (Document.mk 10 1 Phase.phase1 "D" (some 2) DocumentStatus.approved none (some 3))
    { id := 1, title := "P", advisor_id := some 3, project_officer_id := some 4 }
    rfl (Or.inl rfl) (by decide)
  exact h

/-- C3 counterexample: a pending→approved review on a project whose only
enrollment row is student 1, with submitter 2 not enrolled, no assigned
officer, and officer-role account 5 present, creates no notification for
the submitter and none for the officer-role account — the claim requires
one for each. -/
theorem document_review_dispatch_misses_submitter_and_officer_pool :
    ((documentUpdateDispatch
        (DB.mk [{ id := 1, full_name := "S1", role := Role.student },
                { id := 2, full_name := "S2", role := Role.student },
                { id := 5, full_name := "O", role := Role.project_officer }]
            [{ id := 1, title := "P", advisor_id := some 3, project_officer_id := none }]
            [{ project_id := 1, student_id := 1 }]
            [] [] 0)
        (Document.mk 10 1 Phase.phase1 "D" (some 2) DocumentStatus.pending none none)
        (Document.mk 10 1 Phase.phase1 "D" (some 2) DocumentStatus.approved none
          (some 3))).notifications.filter (fun n => n.user_id == 2)).length = 0 ∧
    ((documentUpdateDispatch
        (DB.mk [{ id := 1, full_name := "S1", role := Role.student },
                { id := 2, full_name := "S2", role := Role.student },
                { id := 5, full_name := "O", role := Role.project_officer }]
            [{ id := 1, title := "P", advisor_id := some 3, project_officer_id := none }]
            [{ project_id := 1, student_id := 1 }]
            [] [] 0)
        (Document.mk 10 1 Phase.phase1 "D" (some 2) DocumentStatus.pending none none)
        (Document.mk 10 1 Phase.phase1 "D" (some 2) DocumentStatus.approved none
          (some 3))).notifications.filter (fun n => n.user_id == 5)).length = 0 := by
  decide

/-- What the advisor-side chat trigger adds to the store: one row to the
assigned advisor when the advisor exists and is not the author. -/
theorem advisor_chat_step_spec (db : DB) (msg : ChatMessage) (p : FypProject)
    (pr : Profile)
    (hp : db.projects.find? (fun q => q.id == msg.project_id) = some p)
    (hpr : db.profiles.find? (fun q => q.id == msg.user_id) = some pr) :
    ∃ created : List Notification,
      notify_advisor_chat_message db msg =
        { db with notifications := db.notifications ++ created,
                  next_notification_id := db.next_notification_id + created.length } ∧
      created.map (fun n => n.user_id) =
        (match p.advisor_id with
         | some a => if a = msg.user_id then [] else [a]
         | none => []) ∧
      ∀ n ∈ created, n.notification_type = NotificationType.project_update ∧
        n.is_read = false := by
  cases ha : p.advisor_id with
  | none =>
      refine ⟨[], ?_, by simp [ha], by intro n hn; cases hn⟩
      simp [notify_advisor_chat_message, hp, hpr, ha]
  | some a =>
      by_cases he : a = msg.user_id
      · refine ⟨[], ?_, by simp [ha, he], by intro n hn; cases hn⟩
        have hne : (a != msg.user_id) = false := by simp [he]
        simp [notify_advisor_chat_message, hp, hpr, ha, hne]
      · refine ⟨[{ id := db.next_notification_id, user_id := a,
                   title := "New Chat Message",
                   message := pr.full_name ++ " sent a message in project \"" ++
                     p.title ++ "\"",
                   notification_type := NotificationType.project_update,
                   target_role := none, is_read := false }], ?_,
          by simp [ha, he], ?_⟩
        · have hne : (a != msg.user_id) = true := by simp [he]
          simp [notify_advisor_chat_message, hp, hpr, ha, hne, create_notification]
        · intro n hn
          simp only [List.mem_singleton] at hn
          subst hn
          exact ⟨rfl, rfl⟩

/-- What the student-side chat trigger adds to the store: one row to the
first enrolled student of the project when that student exists and is not
the author.  There is no fan-out to the remaining enrolled students. -/
theorem student_chat_step_spec (db : DB) (msg : ChatMessage) (p : FypProject)
    (pr : Profile)
    (hp : db.projects.find? (fun q => q.id == msg.project_id) = some p)
    (hpr : db.profiles.find? (fun q => q.id == msg.user_id) = some pr) :
    ∃ created : List Notification,
      notify_student_chat_message db msg =
        { db with notifications := db.notifications ++ created,
                  next_notification_id := db.next_notification_id + created.length } ∧
      created.map (fun n => n.user_id) =
        (match (db.project_students.filter (fun ps => ps.project_id == p.id)).head? with
         | some ps => if ps.student_id = msg.user_id then [] else [ps.student_id]
         | none => []) ∧
      ∀ n ∈ created, n.notification_type = NotificationType.project_update ∧
        n.is_read = false := by
  cases hm : (db.project_students.filter (fun ps => ps.project_id == p.id)).head? with
  | none =>
      refine ⟨[], ?_, by simp [hm], by intro n hn; cases hn⟩
      simp [notify_student_chat_message, hp, hpr, hm]
  | some ps =>
      by_cases he : ps.student_id = msg.user_id
      · refine ⟨[], ?_, by simp [hm, he], by intro n hn; cases hn⟩
        have hne : (ps.student_id != msg.user_id) = false := by simp [he]
        simp [notify_student_chat_message, hp, hpr, hm, hne]
      · refine ⟨[{ id := db.next_notification_id, user_id := ps.student_id,
                   title := "New Chat Message",
                   message := pr.full_name ++ " sent a message in project \"" ++
                     p.title ++ "\"",
                   notification_type := NotificationType.project_update,
                   target_role := none, is_read := false }], ?_,
          by simp [hm, he], ?_⟩
        · have hne : (ps.student_id != msg.user_id) = true := by simp [he]
          simp [notify_student_chat_message, hp, hpr, hm, hne, create_notification]
        · intro n hn
          simp only [List.mem_singleton] at hn
          subst hn
          exact ⟨rfl, rfl⟩

/-- C4 amended: a chat message insert creates one `project_update`
notification for the assigned advisor when one exists and is not the
author, and one `project_update` notification for the first enrolled
student of the project when that student exists and is not the author —
at most one student is notified regardless of enrollment size, and a
student-authored message may notify a fellow student rather than fanning
out. -/
theorem chatInsertDispatch_spec (db : DB) (msg : ChatMessage) (p : FypProject)
    (pr : Profile)
    (hp : db.projects.find? (fun q => q.id == msg.project_id) = some p)
    (hpr : db.profiles.find? (fun q => q.id == msg.user_id) = some pr) :
    ∃ created : List Notification,
      (chatInsertDispatch db msg).notifications = db.notifications ++ created ∧
      created.map (fun n => n.user_id) =
        (match p.advisor_id with
         | some a => if a = msg.user_id then [] else [a]
         | none => []) ++
        (match (db.project_students.filter (fun ps => ps.project_id == p.id)).head? with
         | some ps => if ps.student_id = msg.user_id then [] else [ps.student_id]
         | none => []) ∧
      ∀ n ∈ created, n.notification_type = NotificationType.project_update ∧
        n.is_read = false := by
  obtain ⟨c1, hdb1, hmap1, hfields1⟩ := advisor_chat_step_spec db msg p pr hp hpr
  have hp1 : (notify_advisor_chat_message db msg).projects.find?
      (fun q => q.id == msg.project_id) = some p := by rw [hdb1]; exact hp
  have hpr1 : (notify_advisor_chat_message db msg).profiles.find?
      (fun q => q.id == msg.user_id) = some pr := by rw [hdb1]; exact hpr
  obtain ⟨c2, hdb2, hmap2, hfields2⟩ :=
    student_chat_step_spec (notify_advisor_chat_message db msg) msg p pr hp1 hpr1
  have hps : (notify_advisor_chat_message db msg).project_students
      = db.project_students := by rw [hdb1]
  rw [hps] at hmap2
  refine ⟨c1 ++ c2, ?_, ?_, ?_⟩
  · unfold chatInsertDispatch
    rw [hdb2]
    simp [hdb1, List.append_assoc]
  · rw [List.map_append, hmap1, hmap2]
  · intro n hn
    rcases List.mem_append.mp hn with hn | hn
    · exact hfields1 n hn
    · exact hfields2 n hn

/-- C4 amended witness: a message by enrolled student 2 on a project with
advisor 3 and enrollment rows for students 1 and 2 notifies advisor 3 and
first-enrolled student 1 — but not the author. -/
theorem chatInsertDispatch_spec_witness :
    ∃ created : List Notification,
      (chatInsertDispatch
          (DB.mk [{ id := 1, full_name := "S1", role := Role.student },
                  { id := 2, full_name := "S2", role := Role.student },
                  { id := 3, full_name := "A", role := Role.advisor }]
              [{ id := 1, title := "P", advisor_id := some 3, project_officer_id := none }]
              [{ project_id := 1, student_id := 1 }, { project_id := 1, student_id := 2 }]
              [] [] 0)
          (ChatMessage.mk 1 "phase1" 2 "hi")).notifications = [] ++ created ∧
      created.map (fun n => n.user_id) = [3] ++ [1] ∧
      ∀ n ∈ created, n.notification_type = NotificationType.project_update ∧
        n.is_read = false := by
  have h := chatInsertDispatch_spec
    (DB.mk [{ id := 1, full_name := "S1", role := Role.student },
            { id := 2, full_name := "S2", role := Role.student },
            { id := 3, full_name := "A", role := Role.advisor }]
        [{ id := 1, title := "P", advisor_id := some 3, project_officer_id := none }]
        [{ project_id := 1, student_id := 1 }, { project_id := 1, student_id := 2 }]
        [] [] 0)
    (ChatMessage.mk 1 "phase1" 2 "hi")
    { id := 1, title := "P", advisor_id := some 3, project_officer_id := none }
    { id := 2, full_name := "S2", role := Role.student }
    (by decide) (by decide)
  exact h

/-- C4 counterexample: a message authored by the advisor (account 3) of a
project with two enrolled students 1 and 2 creates exactly one
notification in total — to first-enrolled student 1 and none to enrolled
student 2 — while the claim requires one per enrolled student. -/
theorem chat_dispatch_notifies_single_student_only :
    (chatInsertDispatch
        (DB.mk [{ id := 1, full_name := "S1", role := Role.student },
                { id := 2, full_name := "S2", role := Role.student },
                { id := 3, full_name := "A", role := Role.advisor }]
            [{ id := 1, title := "P", advisor_id := some 3, project_officer_id := none }]
            [{ project_id := 1, student_id := 1 }, { project_id := 1, student_id := 2 }]
            [] [] 0)
        (ChatMessage.mk 1 "phase1" 3 "hello")).notifications.length = 1 ∧
    ((chatInsertDispatch
        (DB.mk [{ id := 1, full_name := "S1", role := Role.student },
                { id := 2, full_name := "S2", role := Role.student },
                { id := 3, full_name := "A", role := Role.advisor }]
            [{ id := 1, title := "P", advisor_id := some 3, project_officer_id := none }]
            [{ project_id := 1, student_id := 1 }, { project_id := 1, student_id := 2 }]
            [] [] 0)
        (ChatMessage.mk 1 "phase1" 3 "hello")).notifications.filter
        (fun n => n.user_id == 2)).length = 0 := by
  decide

/-- C2: the review update carries no condition on the row's current
status, so the project's advisor overwrites a terminal status: on a store
whose only document is already `approved`, `handleReviewDocument` by the
advisor flips it to `rejected` — approved is not immutable and no
conflict is reported. -/
theorem handleReviewDocument_overwrites_approved :
    ((handleReviewDocument
        { profiles := [{ id := 3, full_name := "A", role := Role.advisor }],
          projects := [{ id := 1, title := "P", advisor_id := some 3,
                         project_officer_id := none }],
          project_students := [{ project_id := 1, student_id := 2 }],
          documents := [{ id := 10, project_id := 1, phase := Phase.phase1, title := "D",
                          submitted_by := some 2, status := DocumentStatus.approved,
                          advisor_feedback := none, reviewed_by := some 3 }],
          notifications := [], next_notification_id := 0 }
        (some 3) 10 DocumentStatus.rejected "").documents.map (fun d => d.status))
      = [DocumentStatus.rejected] := by
  decide

/-- C6 counterexample: the `notifications` insert policy is
`TO authenticated WITH CHECK (true)`, so a direct insert by an ordinary
authenticated end user passes, and the recipient-scoped update policy
carries no column restriction, so the recipient may rewrite the message
body — not only the read flag. -/
theorem notifications_policies_allow_direct_insert_and_full_edit :
    notifications_insert_allowed (some 1) = true ∧
    notifications_update_allowed (some 1)
      { id := 0, user_id := 1, title := "T", message := "M",
        notification_type := NotificationType.system_announcement,
        target_role := none, is_read := false }
      { id := 0, user_id := 1, title := "T", message := "edited",
        notification_type := NotificationType.system_announcement,
        target_role := none, is_read := false } = true := by
  decide

/-- C6 amended: any authenticated principal passes the notification insert
policy, and an update passes exactly when the caller is the recipient of
both the old and the new row — with no restriction to the read flag. -/
theorem notifications_policy_characterization (uid : Option Nat)
    (old new : Notification) :
    (notifications_insert_allowed uid = true ↔ uid ≠ none) ∧
    (notifications_update_allowed uid old new = true ↔
      uid = some old.user_id ∧ uid = some new.user_id) := by
  constructor
  · cases uid <;> simp [notifications_insert_allowed]
  · cases uid with
    | none => simp [notifications_update_allowed, notifications_update_using, sqlEq]
    | some u =>
        simp only [notifications_update_allowed, notifications_update_using, sqlEq,
          Bool.and_eq_true, beq_iff_eq, Option.some.injEq]
        constructor
        · rintro ⟨h1, h2⟩
          exact ⟨by rw [h1], by rw [h2]⟩
        · rintro ⟨h1, h2⟩
          exact ⟨by rw [← h1], by rw [← h2]⟩

/-- C9: marking one notification read rewrites at most the matched row's
read flag.  Row for row, a notification whose id differs from the marked
one is returned verbatim, and even the matched row keeps its id,
recipient, title, message, type and target role, and a read flag is never
cleared. -/
theorem markAsRead_frame (db : DB) (uid : Option Nat) (notificationId : Nat) :
    List.Forall₂ (fun oldN newN =>
        (oldN.id ≠ notificationId → newN = oldN) ∧
        newN.id = oldN.id ∧ newN.user_id = oldN.user_id ∧ newN.title = oldN.title ∧
        newN.message = oldN.message ∧ newN.notification_type = oldN.notification_type ∧
        newN.target_role = oldN.target_role ∧
        (oldN.is_read = true → newN.is_read = true))
      db.notifications (markAsRead db uid notificationId).notifications := by
  unfold markAsRead
  simp only [List.forall₂_map_right_iff]
  rw [List.forall₂_same]
  intro n _
  by_cases hid : (n.id == notificationId) = true
  · rw [if_pos hid]
    by_cases hall :
        notifications_update_allowed uid n { n with is_read := true } = true
    · rw [if_pos hall]
      exact ⟨fun h => absurd (beq_iff_eq.mp hid) h, rfl, rfl, rfl, rfl, rfl, rfl,
        fun _ => rfl⟩
    · rw [if_neg hall]
      exact ⟨fun _ => rfl, rfl, rfl, rfl, rfl, rfl, rfl, fun h => h⟩
  · rw [if_neg hid]
    exact ⟨fun _ => rfl, rfl, rfl, rfl, rfl, rfl, rfl, fun h => h⟩

/-- C10: the mark-all-read bulk update flips exactly the caller's own
unread rows to read.  Row for row: a row of another recipient, or an
already-read row, is returned verbatim; a caller-owned unread row comes
back as the same row with `is_read := true`; no other field ever changes
and a read flag is never cleared. -/
theorem markAllAsRead_frame (db : DB) (uid : Option Nat) :
    List.Forall₂ (fun oldN newN =>
        (uid = some oldN.user_id ∧ oldN.is_read = false →
          newN = { oldN with is_read := true }) ∧
        (uid ≠ some oldN.user_id → newN = oldN) ∧
        (oldN.is_read = true → newN = oldN) ∧
        newN.id = oldN.id ∧ newN.user_id = oldN.user_id ∧ newN.title = oldN.title ∧
        newN.message = oldN.message ∧ newN.notification_type = oldN.notification_type ∧
        newN.target_role = oldN.target_role ∧
        (oldN.is_read = true → newN.is_read = true))
      db.notifications (markAllAsRead db uid).notifications := by
  unfold markAllAsRead
  simp only [List.forall₂_map_right_iff]
  rw [List.forall₂_same]
  intro n _
  by_cases hcond : (sqlEq (some n.user_id) uid && n.is_read == false) = true
  · rw [if_pos hcond]
    have hu : uid = some n.user_id := by
      have h1 := ((Bool.and_eq_true _ _).mp hcond).1
      cases uid with
      | none => simp [sqlEq] at h1
      | some u =>
          simp only [sqlEq, beq_iff_eq] at h1
          rw [h1]
    have hr : n.is_read = false := by
      have h2 := ((Bool.and_eq_true _ _).mp hcond).2
      simpa using h2
    have hall : notifications_update_allowed uid n { n with is_read := true } = true := by
      simp [notifications_update_allowed, notifications_update_using, hu, sqlEq]
    rw [if_pos hall]
    exact ⟨fun _ => rfl, fun h => absurd hu h, fun h => absurd h (by simp [hr]),
      rfl, rfl, rfl, rfl, rfl, rfl, fun _ => rfl⟩
  · rw [if_neg hcond]
    refine ⟨?_, fun _ => rfl, fun _ => rfl, rfl, rfl, rfl, rfl, rfl, rfl, fun h => h⟩
    rintro ⟨hu, hr⟩
    exfalso
    apply hcond
    have hs : sqlEq (some n.user_id) uid = true := by simp [hu, sqlEq]
    simp [hs, hr]

end Fyp

namespace Fyp

/-- C1: `user_has_project_access` holds exactly for the project's assigned
advisor, the project's assigned officer, an enrolled student, or a
globally officer-role account. -/
theorem user_has_project_access_iff (db : DB) (u : Nat) (pid : Nat) :
    user_has_project_access (some u) pid db = true ↔
      (∃ p ∈ db.projects, p.id = pid ∧ p.advisor_id = some u) ∨
      (∃ p ∈ db.projects, p.id = pid ∧ p.project_officer_id = some u) ∨
      (∃ ps ∈ db.project_students, ps.project_id = pid ∧ ps.student_id = u) ∨
      (∃ pr ∈ db.profiles, pr.id = u ∧ pr.role = Role.project_officer) := by
  simp only [user_has_project_access, check_project_officer, Bool.or_eq_true,
    List.any_eq_true, Bool.and_eq_true, beq_iff_eq, sqlEq_some_iff,
    Option.some.injEq, and_or_left, exists_or]
  constructor
  · rintro ((h | h | h) | h)
    · exact Or.inr (Or.inr (Or.inr h))
    · exact Or.inl h
    · exact Or.inr (Or.inl h)
    · exact Or.inr (Or.inr (Or.inl h))
  · rintro (h | h | h | h)
    · exact Or.inl (Or.inr (Or.inl h))
    · exact Or.inl (Or.inr (Or.inr h))
    · exact Or.inr h
    · exact Or.inl (Or.inl h)

end Fyp
